import Mathlib

/-!
Shallow embedding of the Coolify API client (`src/coolify.ts`) of the
coolify-resource-reconciler repository.

The client is an HTTP wrapper; we embed it by making the network explicit:
every operation takes the raw platform response it would receive as an
argument and returns the list of API calls it issues together with its
result (`Except String α` models a promise that either rejects with an
`Error` carrying a message, or resolves).  A dry-run operation that issues
no request returns an empty call list and ignores the supplied response.
-/

namespace Coolify

/-- A remote application as returned by the platform
(`CoolifyApplication` in `types.ts`; the fields the client reads). -/
structure CoolifyApplication where
  uuid : String
  name : String
  environment_id : Int
deriving DecidableEq

/-- A server as returned by the platform (`CoolifyServer`). -/
structure CoolifyServer where
  uuid : String
  name : String
deriving DecidableEq

/-- An environment as returned by the platform (`CoolifyEnvironment`). -/
structure CoolifyEnvironment where
  id : Int
  name : String
deriving DecidableEq

/-- An environment variable entry sent to the platform (`CoolifyEnvVar`). -/
structure CoolifyEnvVar where
  key : String
  value : String
deriving DecidableEq

/-- An environment variable as returned by the platform
(`CoolifyEnvVarResponse`). -/
structure CoolifyEnvVarResponse where
  uuid : String
  key : String
  value : String
deriving DecidableEq

/-- Response of application creation (`CoolifyCreateUpdateAppResponse`). -/
structure CoolifyCreateUpdateAppResponse where
  uuid : String
deriving DecidableEq

/-- One entry of the `deployments` array in the deploy-initiation response. -/
structure CoolifyDeploymentInfo where
  deployment_uuid : String
deriving DecidableEq

/-- Response of `POST /api/v1/deploy` (`CoolifyInitiateDeployResponse`);
`deployments` is optional and may be an empty array. -/
structure CoolifyInitiateDeployResponse where
  deployments : Option (List CoolifyDeploymentInfo)
deriving DecidableEq

/-- A deployment status record (`CoolifyDeployResponse`; the fields the
client reads and constructs). -/
structure CoolifyDeployResponse where
  status : String
  deployment_uuid : String
deriving DecidableEq

/-- The raw HTTP response the platform hands back for one request, as seen
by `CoolifyClient.request`: whether it was 2xx (`response.ok`), the status
code and status text, whether the `content-type` header includes
`application/json`, the `message` field of the body parsed as
`CoolifyApiError` (absent when the body has no message), and the body
parsed as the expected type `T`. -/
structure ApiResponse (T : Type) where
  ok : Bool
  status : Nat
  statusText : String
  jsonContentType : Bool
  errorMessage : Option String
  value : T

/-- The fallback error message built from the HTTP status line. -/
def httpFallback (status : Nat) (statusText : String) : String :=
  "HTTP " ++ toString status ++ ": " ++ statusText

/-- The hint appended to 401/403 error messages. -/
def scopeHint : String := " - Check your API token permissions (scope)."

/-- Embeds `CoolifyClient.request`: on a non-2xx response it rejects with the
remote body's message when the body is JSON and provides one (otherwise
the HTTP status line), appending the token-scope hint for 401/403; on a
2xx JSON response it resolves with the parsed body; on a 2xx non-JSON
(e.g. empty 204) response it resolves with `null`. -/
def request (T : Type) (resp : ApiResponse T) : Except String (Option T) :=
  if resp.ok = false then
    let base :=
      if resp.jsonContentType then
        match resp.errorMessage with
        | some m => m
        | none => httpFallback resp.status resp.statusText
      else httpFallback resp.status resp.statusText
    let msg :=
      if resp.status = 401 ∨ resp.status = 403 then base ++ scopeHint else base
    Except.error msg
  else if resp.jsonContentType then Except.ok (some resp.value)
  else Except.ok none

/-- Embeds `CoolifyClient.requestRequired`: like `request` but rejecting when the
result is `null`. -/
def requestRequired (T : Type) (path : String) (resp : ApiResponse T) :
    Except String T :=
  match request T resp with
  | Except.error e => Except.error e
  | Except.ok none =>
      Except.error ("API request to " ++ path ++
        " returned an unexpected null response.")
  | Except.ok (some v) => Except.ok v

/-- The client's constructor-set fields (logger omitted: logging has no
effect on results). -/
structure CoolifyClient where
  baseUrl : String
  token : String
  dryRun : Bool
deriving DecidableEq

/-- The constructor removes a trailing slash from the base URL. -/
def mkCoolifyClient (baseUrl token : String) (dryRun : Bool) : CoolifyClient :=
  { baseUrl := if baseUrl.endsWith "/" then baseUrl.dropRight 1 else baseUrl,
    token := token, dryRun := dryRun }

/-- One HTTP request issued to the platform: method and full URL. -/
structure ApiCall where
  method : String
  url : String
deriving DecidableEq

/-- Embeds `CoolifyClient.listApplications`: `GET /api/v1/applications`, a `null`
result becomes the empty list. -/
def listApplications (c : CoolifyClient)
    (resp : ApiResponse (List CoolifyApplication)) :
    List ApiCall × Except String (List CoolifyApplication) :=
  (⟨"GET", c.baseUrl ++ "/api/v1/applications"⟩ :: [],
   match request _ resp with
   | Except.error e => Except.error e
   | Except.ok r => Except.ok (r.getD []))

/-- Embeds `CoolifyClient.listServers`: `GET /api/v1/servers`, a `null` result
becomes the empty list. -/
def listServers (c : CoolifyClient)
    (resp : ApiResponse (List CoolifyServer)) :
    List ApiCall × Except String (List CoolifyServer) :=
  (⟨"GET", c.baseUrl ++ "/api/v1/servers"⟩ :: [],
   match request _ resp with
   | Except.error e => Except.error e
   | Except.ok r => Except.ok (r.getD []))

/-- Embeds `CoolifyClient.listEnvironments`: `GET` on the project's environments
path, a `null` result becomes the empty list. -/
def listEnvironments (c : CoolifyClient) (projectId : String)
    (resp : ApiResponse (List CoolifyEnvironment)) :
    List ApiCall × Except String (List CoolifyEnvironment) :=
  (⟨"GET", c.baseUrl ++ "/api/v1/projects/" ++ projectId ++ "/environments"⟩ :: [],
   match request _ resp with
   | Except.error e => Except.error e
   | Except.ok r => Except.ok (r.getD []))

/-- Embeds `CoolifyClient.findEnvironmentByName`: lists the project's environments
and returns the first whose `name` matches, or `null`. -/
def findEnvironmentByName (c : CoolifyClient) (projectId name : String)
    (resp : ApiResponse (List CoolifyEnvironment)) :
    List ApiCall × Except String (Option CoolifyEnvironment) :=
  match listEnvironments c projectId resp with
  | (calls, Except.error e) => (calls, Except.error e)
  | (calls, Except.ok envs) =>
      (calls, Except.ok (envs.find? (fun env => env.name == name)))

/-- Embeds `CoolifyClient.findApplicationByName`: lists all applications and
returns the first whose `name` AND `environment_id` both match, or `null`. -/
def findApplicationByName (c : CoolifyClient) (name : String)
    (environmentId : Int) (resp : ApiResponse (List CoolifyApplication)) :
    List ApiCall × Except String (Option CoolifyApplication) :=
  match listApplications c resp with
  | (calls, Except.error e) => (calls, Except.error e)
  | (calls, Except.ok apps) =>
      (calls, Except.ok (apps.find?
        (fun app => app.name == name && app.environment_id == environmentId)))

/-- Embeds `CoolifyClient.listEnvironmentVariables`: `GET` on the application's
envs path, a `null` result becomes the empty list. -/
def listEnvironmentVariables (c : CoolifyClient) (uuid : String)
    (resp : ApiResponse (List CoolifyEnvVarResponse)) :
    List ApiCall × Except String (List CoolifyEnvVarResponse) :=
  (⟨"GET", c.baseUrl ++ "/api/v1/applications/" ++ uuid ++ "/envs"⟩ :: [],
   match request _ resp with
   | Except.error e => Except.error e
   | Except.ok r => Except.ok (r.getD []))

/-- A declared health check of a manifest resource (`Resource.healthCheck`
in `manifest.ts`); every sub-field is optional. -/
structure HealthCheck where
  path : Option String
  port : Option String
  host : Option String
  method : Option String
  returnCode : Option Int
  scheme : Option String
  responseText : Option String
  interval : Option Int
  timeout : Option Int
  retries : Option Int
  startPeriod : Option Int
deriving DecidableEq

/-- A declared manifest resource (`Resource` in `manifest.ts`): the fields
read by the client. `domains` and `portsExposes` are optional strings and
may also be declared as the empty string. -/
structure Resource where
  name : String
  description : String
  dockerImageName : String
  envSecretName : Option String
  domains : Option String
  portsExposes : Option String
  healthCheck : Option HealthCheck
deriving DecidableEq

/-- JavaScript `s || undefined` on an optional string: the empty string is
falsy, so it collapses to `undefined`; a non-empty string passes through. -/
def orUndefined (s : Option String) : Option String :=
  match s with
  | none => none
  | some v => if v = "" then none else some v

/-- The creation payload (`CoolifyCreateDockerImageAppOptions`); optional
keys are `none` when absent from the serialized payload. -/
structure CoolifyCreateDockerImageAppOptions where
  project_uuid : String
  server_uuid : String
  environment_name : String
  environment_uuid : String
  destination_uuid : String
  docker_registry_image_name : String
  docker_registry_image_tag : String
  name : String
  description : String
  domains : Option String
  ports_exposes : Option String
  instant_deploy : Bool
  health_check_enabled : Option Bool
  health_check_path : Option String
  health_check_port : Option String
  health_check_host : Option String
  health_check_method : Option String
  health_check_return_code : Option Int
  health_check_scheme : Option String
  health_check_response_text : Option String
  health_check_interval : Option Int
  health_check_timeout : Option Int
  health_check_retries : Option Int
  health_check_start_period : Option Int
deriving DecidableEq

/-- The update payload (`CoolifyUpdateAppOptions`); identity/placement
fields are omitted. -/
structure CoolifyUpdateAppOptions where
  docker_registry_image_name : String
  docker_registry_image_tag : String
  name : String
  description : String
  domains : Option String
  ports_exposes : Option String
  health_check_enabled : Option Bool
  health_check_path : Option String
  health_check_port : Option String
  health_check_host : Option String
  health_check_method : Option String
  health_check_return_code : Option Int
  health_check_scheme : Option String
  health_check_response_text : Option String
  health_check_interval : Option Int
  health_check_timeout : Option Int
  health_check_retries : Option Int
  health_check_start_period : Option Int
deriving DecidableEq

/-- Embeds `CoolifyClient.buildCreateOptions`: maps a manifest resource plus
run-scoped identifiers to the creation payload. -/
def buildCreateOptions (resource : Resource)
    (projectId serverId environmentName environmentUuid destinationUuid
     dockerTag : String) : CoolifyCreateDockerImageAppOptions :=
  let options : CoolifyCreateDockerImageAppOptions :=
    { project_uuid := projectId,
      server_uuid := serverId,
      environment_name := environmentName,
      environment_uuid := environmentUuid,
      destination_uuid := destinationUuid,
      docker_registry_image_name := resource.dockerImageName,
      docker_registry_image_tag := dockerTag,
      name := resource.name,
      description := resource.description,
      domains := orUndefined resource.domains,
      ports_exposes := orUndefined resource.portsExposes,
      instant_deploy := false,
      health_check_enabled := none,
      health_check_path := none,
      health_check_port := none,
      health_check_host := none,
      health_check_method := none,
      health_check_return_code := none,
      health_check_scheme := none,
      health_check_response_text := none,
      health_check_interval := none,
      health_check_timeout := none,
      health_check_retries := none,
      health_check_start_period := none }
  match resource.healthCheck with
  | none => options
  | some hc =>
      { options with
        health_check_enabled := some true,
        health_check_path := hc.path,
        health_check_port := hc.port,
        health_check_host := hc.host,
        health_check_method := hc.method,
        health_check_return_code := hc.returnCode,
        health_check_scheme := hc.scheme,
        health_check_response_text := hc.responseText,
        health_check_interval := hc.interval,
        health_check_timeout := hc.timeout,
        health_check_retries := hc.retries,
        health_check_start_period := hc.startPeriod }

/-- Embeds `CoolifyClient.buildUpdateOptions`: maps a manifest resource plus the
image tag to the update payload. -/
def buildUpdateOptions (resource : Resource) (dockerTag : String) :
    CoolifyUpdateAppOptions :=
  let options : CoolifyUpdateAppOptions :=
    { docker_registry_image_name := resource.dockerImageName,
      docker_registry_image_tag := dockerTag,
      name := resource.name,
      description := resource.description,
      domains := orUndefined resource.domains,
      ports_exposes := orUndefined resource.portsExposes,
      health_check_enabled := none,
      health_check_path := none,
      health_check_port := none,
      health_check_host := none,
      health_check_method := none,
      health_check_return_code := none,
      health_check_scheme := none,
      health_check_response_text := none,
      health_check_interval := none,
      health_check_timeout := none,
      health_check_retries := none,
      health_check_start_period := none }
  match resource.healthCheck with
  | none => options
  | some hc =>
      { options with
        health_check_enabled := some true,
        health_check_path := hc.path,
        health_check_port := hc.port,
        health_check_host := hc.host,
        health_check_method := hc.method,
        health_check_return_code := hc.returnCode,
        health_check_scheme := hc.scheme,
        health_check_response_text := hc.responseText,
        health_check_interval := hc.interval,
        health_check_timeout := hc.timeout,
        health_check_retries := hc.retries,
        health_check_start_period := hc.startPeriod }

/-- Embeds `CoolifyClient.createDockerImageApplication`: in dry-run mode issues no
request and resolves with the placeholder uuid; otherwise `POST`s the
creation payload and rejects on a `null` response. -/
def createDockerImageApplication (c : CoolifyClient)
    (options : CoolifyCreateDockerImageAppOptions)
    (resp : ApiResponse CoolifyCreateUpdateAppResponse) :
    List ApiCall × Except String CoolifyCreateUpdateAppResponse :=
  if c.dryRun then
    ([], Except.ok { uuid := "dry-run-uuid" })
  else
    (⟨"POST", c.baseUrl ++ "/api/v1/applications/dockerimage"⟩ :: [],
     requestRequired _ "/api/v1/applications/dockerimage" resp)

/-- Embeds `CoolifyClient.updateApplication`: in dry-run mode issues no request
and resolves; otherwise `PATCH`es the application and resolves with `void`
(any non-error response, JSON or not, is accepted). -/
def updateApplication (c : CoolifyClient) (uuid : String)
    (options : CoolifyUpdateAppOptions) (resp : ApiResponse Unit) :
    List ApiCall × Except String Unit :=
  if c.dryRun then
    ([], Except.ok ())
  else
    (⟨"PATCH", c.baseUrl ++ "/api/v1/applications/" ++ uuid⟩ :: [],
     match request _ resp with
     | Except.error e => Except.error e
     | Except.ok _ => Except.ok ())

/-- Embeds `CoolifyClient.updateEnvironmentVariables`: in dry-run mode issues no
request and resolves; otherwise `PATCH`es the bulk envs endpoint. -/
def updateEnvironmentVariables (c : CoolifyClient) (uuid : String)
    (envVars : List CoolifyEnvVar) (resp : ApiResponse Unit) :
    List ApiCall × Except String Unit :=
  if c.dryRun then
    ([], Except.ok ())
  else
    (⟨"PATCH", c.baseUrl ++ "/api/v1/applications/" ++ uuid ++ "/envs/bulk"⟩ :: [],
     match request _ resp with
     | Except.error e => Except.error e
     | Except.ok _ => Except.ok ())

/-- Embeds `CoolifyClient.deleteEnvironmentVariable`: in dry-run mode issues no
request and resolves; otherwise `DELETE`s the variable. -/
def deleteEnvironmentVariable (c : CoolifyClient) (appUuid envUuid : String)
    (resp : ApiResponse Unit) : List ApiCall × Except String Unit :=
  if c.dryRun then
    ([], Except.ok ())
  else
    (⟨"DELETE", c.baseUrl ++ "/api/v1/applications/" ++ appUuid ++ "/envs/" ++ envUuid⟩ :: [],
     match request _ resp with
     | Except.error e => Except.error e
     | Except.ok _ => Except.ok ())

/-- Embeds `CoolifyClient.deleteApplication`: in dry-run mode issues no request
and resolves; otherwise `DELETE`s the application. -/
def deleteApplication (c : CoolifyClient) (uuid : String)
    (resp : ApiResponse Unit) : List ApiCall × Except String Unit :=
  if c.dryRun then
    ([], Except.ok ())
  else
    (⟨"DELETE", c.baseUrl ++ "/api/v1/applications/" ++ uuid⟩ :: [],
     match request _ resp with
     | Except.error e => Except.error e
     | Except.ok _ => Except.ok ())

/-- Embeds `response?.deployments?.[0]?.deployment_uuid ?? null` of
`deployApplication`. -/
def firstDeploymentUuid (r : Option CoolifyInitiateDeployResponse) :
    Option String :=
  match r with
  | none => none
  | some resp =>
      match resp.deployments with
      | none => none
      | some [] => none
      | some (d :: _) => some d.deployment_uuid

/-- Embeds `CoolifyClient.deployApplication`: in dry-run mode issues no request
and resolves with the placeholder deployment uuid; otherwise `POST`s the
deploy endpoint and extracts the first deployment uuid (or `null`). -/
def deployApplication (c : CoolifyClient) (uuid : String)
    (resp : ApiResponse CoolifyInitiateDeployResponse) :
    List ApiCall × Except String (Option String) :=
  if c.dryRun then
    ([], Except.ok (some "dry-run-deployment-uuid"))
  else
    (⟨"POST", c.baseUrl ++ "/api/v1/deploy"⟩ :: [],
     match request _ resp with
     | Except.error e => Except.error e
     | Except.ok r => Except.ok (firstDeploymentUuid r))

/-- Embeds `CoolifyClient.getDeployment`: in dry-run mode issues no request and
resolves with a synthetic record of status `finished` for the given uuid;
otherwise `GET`s the deployment's status from the platform. -/
def getDeployment (c : CoolifyClient) (uuid : String)
    (resp : ApiResponse CoolifyDeployResponse) :
    List ApiCall × Except String (Option CoolifyDeployResponse) :=
  if c.dryRun then
    ([], Except.ok (some { status := "finished", deployment_uuid := uuid }))
  else
    (⟨"GET", c.baseUrl ++ "/api/v1/deployments/" ++ uuid⟩ :: [],
     request _ resp)

/-- Default `timeoutMs` of `waitForDeployment` (5 minutes). -/
def defaultWaitTimeoutMs : Nat := 300000

/-- Default `intervalMs` of `waitForDeployment` (2 seconds). -/
def defaultWaitIntervalMs : Nat := 2000

/-- The number of poll iterations `waitForDeployment`'s `while` loop makes:
the k-th poll (0-based) happens when `k * intervalMs` milliseconds have
elapsed (each iteration ends in a sleep of `intervalMs`; the calls
themselves are instantaneous in this model), and the loop runs while the
elapsed time is `< timeoutMs`. -/
def numPolls (timeoutMs intervalMs : Nat) : Nat :=
  (timeoutMs + intervalMs - 1) / intervalMs

/-- The timeout error message of `waitForDeployment`. -/
def timedOutMsg (uuid : String) (timeoutMs : Nat) : String :=
  "Deployment " ++ uuid ++ " timed out after " ++ toString timeoutMs ++ "ms"

/-- The failure error message of `waitForDeployment`. -/
def deployFailedMsg (uuid : String) : String :=
  "Deployment " ++ uuid ++ " failed."

/-- The body of `waitForDeployment`'s polling loop: `polls k` is the
deployment record (or `null`) returned by the k-th successful
`getDeployment` call, `n` is the number of iterations left before the
timeout check fails. A `finished` status resolves with the record, a
`failed` status rejects; anything else (including a `null` deployment)
sleeps and polls again. -/
def waitLoop (uuid : String) (timeoutMs : Nat)
    (polls : Nat → Option CoolifyDeployResponse) :
    Nat → Nat → Except String CoolifyDeployResponse
  | _, 0 => Except.error (timedOutMsg uuid timeoutMs)
  | k, Nat.succ n =>
      match polls k with
      | none => waitLoop uuid timeoutMs polls (k + 1) n
      | some d =>
          if d.status = "finished" then Except.ok d
          else if d.status = "failed" then
            Except.error (deployFailedMsg uuid)
          else waitLoop uuid timeoutMs polls (k + 1) n

/-- Embeds `CoolifyClient.waitForDeployment`: in dry-run mode resolves immediately
with a synthetic `finished` record; otherwise polls `getDeployment` every
`intervalMs` milliseconds until `finished` (resolve), `failed` (reject), or
the `timeoutMs` deadline (reject with a timeout error). -/
def waitForDeployment (c : CoolifyClient) (uuid : String)
    (timeoutMs intervalMs : Nat)
    (polls : Nat → Option CoolifyDeployResponse) :
    Except String CoolifyDeployResponse :=
  if c.dryRun then
    Except.ok { status := "finished", deployment_uuid := uuid }
  else
    waitLoop uuid timeoutMs polls 0 (numPolls timeoutMs intervalMs)

/-- A poll result that lets the loop continue: either a `null` deployment
or a status that is neither `finished` nor `failed`. -/
def nonTerminal (p : Option CoolifyDeployResponse) : Prop :=
  ∀ d, p = some d → d.status ≠ "finished" ∧ d.status ≠ "failed"

/-- A sample health check used to instantiate witnesses. -/
def sampleHealthCheck : HealthCheck :=
  { path := some "/health", port := some "3000", host := none, method := none,
    returnCode := none, scheme := none, responseText := none, interval := none,
    timeout := none, retries := none, startPeriod := none }

/-- A sample resource used to instantiate witnesses. -/
def sampleResource : Resource :=
  { name := "api", description := "service", dockerImageName := "ghcr.io/o/api",
    envSecretName := none, domains := some "api.example.com",
    portsExposes := some "", healthCheck := some sampleHealthCheck }

/-- C2: for every application name, environment id and list of remote
applications (a successful JSON response), `findApplicationByName` returns
an application only if both its name equals the requested name and its
`environment_id` equals the requested environment id, and returns absent
when no application matches both — so two applications with the same name
in different environments never cross-match. -/
theorem findApplicationByName_scoped_by_environment (c : CoolifyClient)
    (name : String) (envId : Int)
    (resp : ApiResponse (List CoolifyApplication))
    (hok : resp.ok = true) (hjson : resp.jsonContentType = true) :
    (∀ app, (findApplicationByName c name envId resp).2 =
        Except.ok (some app) →
      app.name = name ∧ app.environment_id = envId) ∧
    ((∀ app ∈ resp.value,
        ¬(app.name = name ∧ app.environment_id = envId)) →
      (findApplicationByName c name envId resp).2 = Except.ok none) := by
  have hfind : (findApplicationByName c name envId resp).2 =
      Except.ok (resp.value.find?
        (fun app => app.name == name && app.environment_id == envId)) := by
    simp [findApplicationByName, listApplications, request, hok, hjson]
  constructor
  · intro app happ
    rw [hfind] at happ
    have h1 : resp.value.find?
        (fun app => app.name == name && app.environment_id == envId) =
          some app := by
      simpa using happ
    have h2 := List.find?_some h1
    simp only [Bool.and_eq_true, beq_iff_eq] at h2
    exact h2
  · intro hall
    rw [hfind]
    have hnone : resp.value.find?
        (fun app => app.name == name && app.environment_id == envId) =
          none := by
      rw [List.find?_eq_none]
      intro app hmem
      have := hall app hmem
      simp only [Bool.and_eq_true, beq_iff_eq]
      tauto
    rw [hnone]

/-- Witness for C2: with one remote application named `api` in environment
2, searching for `api` in environment 1 finds nothing. -/
theorem findApplicationByName_scoped_by_environment_witness :
    (findApplicationByName ⟨"https://x", "t", false⟩ "api" 1
      ({ ok := true, status := 200, statusText := "OK",
         jsonContentType := true, errorMessage := none,
         value := [⟨"u2", "api", 2⟩] } :
        ApiResponse (List CoolifyApplication))).2 = Except.ok none :=
  (findApplicationByName_scoped_by_environment ⟨"https://x", "t", false⟩
      "api" 1 _ rfl rfl).2 (by decide)

/-- C9: for every resource and every set of run identifiers, the creation
payload has `instant_deploy = false`, so creation never triggers a deploy
by itself. -/
theorem buildCreateOptions_instant_deploy_false (r : Resource)
    (p s e eu d t : String) :
    (buildCreateOptions r p s e eu d t).instant_deploy = false := by
  cases hhc : r.healthCheck <;> simp [buildCreateOptions, hhc]

/-- C4: when a resource declares `domains` or `portsExposes` as the empty
string, both payload builders omit the corresponding key entirely; a
non-empty declared string is passed through unchanged. -/
theorem buildOptions_empty_optional_fields_omitted (r : Resource)
    (p s e eu d t : String) :
    (r.domains = some "" →
      (buildCreateOptions r p s e eu d t).domains = none ∧
      (buildUpdateOptions r t).domains = none) ∧
    (r.portsExposes = some "" →
      (buildCreateOptions r p s e eu d t).ports_exposes = none ∧
      (buildUpdateOptions r t).ports_exposes = none) ∧
    (∀ v, r.domains = some v → v ≠ "" →
      (buildCreateOptions r p s e eu d t).domains = some v ∧
      (buildUpdateOptions r t).domains = some v) ∧
    (∀ v, r.portsExposes = some v → v ≠ "" →
      (buildCreateOptions r p s e eu d t).ports_exposes = some v ∧
      (buildUpdateOptions r t).ports_exposes = some v) := by
  have hc : (buildCreateOptions r p s e eu d t).domains =
      orUndefined r.domains ∧
      (buildCreateOptions r p s e eu d t).ports_exposes =
        orUndefined r.portsExposes ∧
      (buildUpdateOptions r t).domains = orUndefined r.domains ∧
      (buildUpdateOptions r t).ports_exposes =
        orUndefined r.portsExposes := by
    cases hhc : r.healthCheck <;>
      simp [buildCreateOptions, buildUpdateOptions, hhc]
  obtain ⟨h1, h2, h3, h4⟩ := hc
  refine ⟨?_, ?_, ?_, ?_⟩
  · intro hd; rw [h1, h3, hd]; simp [orUndefined]
  · intro hp; rw [h2, h4, hp]; simp [orUndefined]
  · intro v hd hv; rw [h1, h3, hd]; simp [orUndefined, hv]
  · intro v hp hv; rw [h2, h4, hp]; simp [orUndefined, hv]

/-- Witness for C4: the sample resource declares `portsExposes = ""` and a
non-empty domain; the creation payload omits `ports_exposes` and keeps the
domain. -/
theorem buildOptions_empty_optional_fields_omitted_witness :
    (buildCreateOptions sampleResource "p" "s" "e" "eu" "d" "t").ports_exposes
      = none ∧
    (buildCreateOptions sampleResource "p" "s" "e" "eu" "d" "t").domains
      = some "api.example.com" :=
  ⟨((buildOptions_empty_optional_fields_omitted sampleResource
      "p" "s" "e" "eu" "d" "t").2.1 rfl).1,
   (((buildOptions_empty_optional_fields_omitted sampleResource
      "p" "s" "e" "eu" "d" "t").2.2.1 "api.example.com" rfl (by decide))).1⟩

/-- C6: both payload builders emit the health-check fields as a group — a
present `healthCheck` forces `health_check_enabled = true` and copies each
declared sub-field (an undefined sub-field stays absent rather than being
defaulted); an absent `healthCheck` leaves every `health_check_*` key out
of the payload. -/
theorem buildOptions_health_check_group (r : Resource)
    (p s e eu d t : String) :
    (∀ hc, r.healthCheck = some hc →
      (buildCreateOptions r p s e eu d t).health_check_enabled = some true ∧
      (buildCreateOptions r p s e eu d t).health_check_path = hc.path ∧
      (buildCreateOptions r p s e eu d t).health_check_port = hc.port ∧
      (buildCreateOptions r p s e eu d t).health_check_host = hc.host ∧
      (buildCreateOptions r p s e eu d t).health_check_method = hc.method ∧
      (buildCreateOptions r p s e eu d t).health_check_return_code
        = hc.returnCode ∧
      (buildCreateOptions r p s e eu d t).health_check_scheme = hc.scheme ∧
      (buildCreateOptions r p s e eu d t).health_check_response_text
        = hc.responseText ∧
      (buildCreateOptions r p s e eu d t).health_check_interval
        = hc.interval ∧
      (buildCreateOptions r p s e eu d t).health_check_timeout
        = hc.timeout ∧
      (buildCreateOptions r p s e eu d t).health_check_retries
        = hc.retries ∧
      (buildCreateOptions r p s e eu d t).health_check_start_period
        = hc.startPeriod ∧
      (buildUpdateOptions r t).health_check_enabled = some true ∧
      (buildUpdateOptions r t).health_check_path = hc.path ∧
      (buildUpdateOptions r t).health_check_port = hc.port ∧
      (buildUpdateOptions r t).health_check_host = hc.host ∧
      (buildUpdateOptions r t).health_check_method = hc.method ∧
      (buildUpdateOptions r t).health_check_return_code = hc.returnCode ∧
      (buildUpdateOptions r t).health_check_scheme = hc.scheme ∧
      (buildUpdateOptions r t).health_check_response_text
        = hc.responseText ∧
      (buildUpdateOptions r t).health_check_interval = hc.interval ∧
      (buildUpdateOptions r t).health_check_timeout = hc.timeout ∧
      (buildUpdateOptions r t).health_check_retries = hc.retries ∧
      (buildUpdateOptions r t).health_check_start_period = hc.startPeriod) ∧
    (r.healthCheck = none →
      (buildCreateOptions r p s e eu d t).health_check_enabled = none ∧
      (buildCreateOptions r p s e eu d t).health_check_path = none ∧
      (buildCreateOptions r p s e eu d t).health_check_port = none ∧
      (buildCreateOptions r p s e eu d t).health_check_host = none ∧
      (buildCreateOptions r p s e eu d t).health_check_method = none ∧
      (buildCreateOptions r p s e eu d t).health_check_return_code = none ∧
      (buildCreateOptions r p s e eu d t).health_check_scheme = none ∧
      (buildCreateOptions r p s e eu d t).health_check_response_text
        = none ∧
      (buildCreateOptions r p s e eu d t).health_check_interval = none ∧
      (buildCreateOptions r p s e eu d t).health_check_timeout = none ∧
      (buildCreateOptions r p s e eu d t).health_check_retries = none ∧
      (buildCreateOptions r p s e eu d t).health_check_start_period
        = none ∧
      (buildUpdateOptions r t).health_check_enabled = none ∧
      (buildUpdateOptions r t).health_check_path = none ∧
      (buildUpdateOptions r t).health_check_port = none ∧
      (buildUpdateOptions r t).health_check_host = none ∧
      (buildUpdateOptions r t).health_check_method = none ∧
      (buildUpdateOptions r t).health_check_return_code = none ∧
      (buildUpdateOptions r t).health_check_scheme = none ∧
      (buildUpdateOptions r t).health_check_response_text = none ∧
      (buildUpdateOptions r t).health_check_interval = none ∧
      (buildUpdateOptions r t).health_check_timeout = none ∧
      (buildUpdateOptions r t).health_check_retries = none ∧
      (buildUpdateOptions r t).health_check_start_period = none) := by
  constructor
  · intro hc hhc
    simp [buildCreateOptions, buildUpdateOptions, hhc]
  · intro hhc
    simp [buildCreateOptions, buildUpdateOptions, hhc]

/-- Witness for C6: the sample resource declares a health check with a
path, an undefined host and an undefined retries count; the creation
payload enables the check, copies the path and leaves host and retries
absent. -/
theorem buildOptions_health_check_group_witness :
    (buildCreateOptions sampleResource "p" "s" "e" "eu" "d" "t").health_check_enabled
      = some true ∧
    (buildCreateOptions sampleResource "p" "s" "e" "eu" "d" "t").health_check_path
      = some "/health" ∧
    (buildCreateOptions sampleResource "p" "s" "e" "eu" "d" "t").health_check_host
      = none := by
  have h := (buildOptions_health_check_group sampleResource
    "p" "s" "e" "eu" "d" "t").1 sampleHealthCheck rfl
  exact ⟨h.1, h.2.1, h.2.2.2.1⟩

/-- C5: with `dryRun = true`, every mutating operation issues no API
request and returns a synthetic success value: creation resolves with the
placeholder uuid `dry-run-uuid`, the deploy trigger resolves with
`dry-run-deployment-uuid`, and the void operations resolve. -/
theorem dryRun_mutations_simulated (c : CoolifyClient)
    (h : c.dryRun = true) (opts : CoolifyCreateDockerImageAppOptions)
    (uopts : CoolifyUpdateAppOptions) (uuid appUuid envUuid : String)
    (envVars : List CoolifyEnvVar)
    (r1 : ApiResponse CoolifyCreateUpdateAppResponse)
    (r2 r3 r4 r5 : ApiResponse Unit)
    (r6 : ApiResponse CoolifyInitiateDeployResponse) :
    createDockerImageApplication c opts r1 =
      ([], Except.ok { uuid := "dry-run-uuid" }) ∧
    updateApplication c uuid uopts r2 = ([], Except.ok ()) ∧
    updateEnvironmentVariables c uuid envVars r3 = ([], Except.ok ()) ∧
    deleteEnvironmentVariable c appUuid envUuid r4 = ([], Except.ok ()) ∧
    deleteApplication c uuid r5 = ([], Except.ok ()) ∧
    deployApplication c uuid r6 =
      ([], Except.ok (some "dry-run-deployment-uuid")) := by
  simp [createDockerImageApplication, updateApplication,
    updateEnvironmentVariables, deleteEnvironmentVariable,
    deleteApplication, deployApplication, h]

/-- Witness for C5: a concrete dry-run client creating an application
issues no call and gets the placeholder uuid, even though the supplied
platform response carries a different uuid. -/
theorem dryRun_mutations_simulated_witness :
    createDockerImageApplication ⟨"https://x", "t", true⟩
      (buildCreateOptions sampleResource "p" "s" "e" "eu" "d" "t")
      ({ ok := true, status := 201, statusText := "Created",
         jsonContentType := true, errorMessage := none,
         value := { uuid := "real-uuid" } } :
        ApiResponse CoolifyCreateUpdateAppResponse) =
      ([], Except.ok { uuid := "dry-run-uuid" }) :=
  (dryRun_mutations_simulated ⟨"https://x", "t", true⟩ rfl
    (buildCreateOptions sampleResource "p" "s" "e" "eu" "d" "t")
    (buildUpdateOptions sampleResource "t") "u" "a" "e" []
    _ ⟨true, 200, "OK", false, none, ()⟩ ⟨true, 200, "OK", false, none, ()⟩
    ⟨true, 200, "OK", false, none, ()⟩ ⟨true, 200, "OK", false, none, ()⟩
    ⟨true, 200, "OK", true, none, ⟨none⟩⟩).1

/-- C7: a non-2xx response makes the call fail with an error message whose
base is the remote body's message when the JSON body provides one and the
`HTTP status: statusText` line otherwise, with the token-scope hint
appended exactly when the status is 401 or 403. -/
theorem request_non2xx_error (T : Type) (resp : ApiResponse T)
    (h : resp.ok = false) :
    scopeHint = " - Check your API token permissions (scope)." ∧
    ∃ base,
      request T resp = Except.error
        (if resp.status = 401 ∨ resp.status = 403 then base ++ scopeHint
         else base) ∧
      ((resp.jsonContentType = true ∧
          ∃ m, resp.errorMessage = some m ∧ base = m) ∨
       ((resp.jsonContentType = false ∨ resp.errorMessage = none) ∧
          base = "HTTP " ++ toString resp.status ++ ": " ++
            resp.statusText)) := by
  refine ⟨rfl, ?_⟩
  cases hj : resp.jsonContentType with
  | false =>
      exact ⟨httpFallback resp.status resp.statusText,
        by simp [request, h, hj, httpFallback],
        Or.inr ⟨Or.inl rfl, rfl⟩⟩
  | true =>
      cases hm : resp.errorMessage with
      | none =>
          exact ⟨httpFallback resp.status resp.statusText,
            by simp [request, h, hj, hm, httpFallback],
            Or.inr ⟨Or.inr rfl, rfl⟩⟩
      | some m =>
          exact ⟨m, by simp [request, h, hj, hm],
            Or.inl ⟨rfl, m, rfl, rfl⟩⟩

/-- Witness for C7: a 401 response with a JSON body carrying
`Invalid token` rejects with that message plus the scope hint. -/
theorem request_non2xx_error_witness :
    scopeHint = " - Check your API token permissions (scope)." ∧
    ∃ base,
      request Unit ⟨false, 401, "Unauthorized", true, some "Invalid token", ()⟩
        = Except.error
          (if (401 : Nat) = 401 ∨ (401 : Nat) = 403 then base ++ scopeHint
           else base) ∧
      (((true : Bool) = true ∧
          ∃ m, (some "Invalid token" : Option String) = some m ∧ base = m) ∨
       (((true : Bool) = false ∨ (some "Invalid token" : Option String) = none) ∧
          base = "HTTP " ++ toString (401 : Nat) ++ ": " ++ "Unauthorized")) :=
  request_non2xx_error Unit
    ⟨false, 401, "Unauthorized", true, some "Invalid token", ()⟩ rfl

/-- C8: for every void-returning mutating operation, a live 2xx response
whose body is not JSON (e.g. empty) completes the operation successfully. -/
theorem voidOps_accept_empty_body (c : CoolifyClient) (h : c.dryRun = false)
    (uuid appUuid envUuid : String) (uopts : CoolifyUpdateAppOptions)
    (envVars : List CoolifyEnvVar) (resp : ApiResponse Unit)
    (hok : resp.ok = true) (hjson : resp.jsonContentType = false) :
    (updateApplication c uuid uopts resp).2 = Except.ok () ∧
    (updateEnvironmentVariables c uuid envVars resp).2 = Except.ok () ∧
    (deleteEnvironmentVariable c appUuid envUuid resp).2 = Except.ok () ∧
    (deleteApplication c uuid resp).2 = Except.ok () := by
  simp [updateApplication, updateEnvironmentVariables,
    deleteEnvironmentVariable, deleteApplication, request, h, hok, hjson]

/-- Witness for C8: a live client updating an application with a 204-style
empty response succeeds. -/
theorem voidOps_accept_empty_body_witness :
    (updateApplication ⟨"https://x", "t", false⟩ "u"
      (buildUpdateOptions sampleResource "t")
      ⟨true, 204, "No Content", false, none, ()⟩).2 = Except.ok () :=
  (voidOps_accept_empty_body ⟨"https://x", "t", false⟩ rfl "u" "a" "e"
    (buildUpdateOptions sampleResource "t") []
    ⟨true, 204, "No Content", false, none, ()⟩ rfl rfl).1

/-- C10: the four list operations never resolve with `null` on a 2xx
response — each resolves with some list, and with the empty list when the
response body is empty or not JSON. -/
theorem listOps_never_null (c : CoolifyClient) (uuid projectId : String)
    (rA : ApiResponse (List CoolifyApplication))
    (rS : ApiResponse (List CoolifyServer))
    (rE : ApiResponse (List CoolifyEnvironment))
    (rV : ApiResponse (List CoolifyEnvVarResponse))
    (hA : rA.ok = true) (hS : rS.ok = true) (hE : rE.ok = true)
    (hV : rV.ok = true) :
    (∃ l, (listApplications c rA).2 = Except.ok l ∧
      (rA.jsonContentType = false → l = [])) ∧
    (∃ l, (listServers c rS).2 = Except.ok l ∧
      (rS.jsonContentType = false → l = [])) ∧
    (∃ l, (listEnvironments c projectId rE).2 = Except.ok l ∧
      (rE.jsonContentType = false → l = [])) ∧
    (∃ l, (listEnvironmentVariables c uuid rV).2 = Except.ok l ∧
      (rV.jsonContentType = false → l = [])) := by
  refine ⟨?_, ?_, ?_, ?_⟩
  · cases hj : rA.jsonContentType
    · exact ⟨[], by simp [listApplications, request, hA, hj], fun _ => rfl⟩
    · exact ⟨rA.value, by simp [listApplications, request, hA, hj],
        by simp [hj]⟩
  · cases hj : rS.jsonContentType
    · exact ⟨[], by simp [listServers, request, hS, hj], fun _ => rfl⟩
    · exact ⟨rS.value, by simp [listServers, request, hS, hj],
        by simp [hj]⟩
  · cases hj : rE.jsonContentType
    · exact ⟨[], by simp [listEnvironments, request, hE, hj], fun _ => rfl⟩
    · exact ⟨rE.value, by simp [listEnvironments, request, hE, hj],
        by simp [hj]⟩
  · cases hj : rV.jsonContentType
    · exact ⟨[], by simp [listEnvironmentVariables, request, hV, hj],
        fun _ => rfl⟩
    · exact ⟨rV.value, by simp [listEnvironmentVariables, request, hV, hj],
        by simp [hj]⟩

/-- Witness for C10: a 2xx empty-body response to `listApplications`
resolves with some list that is empty. -/
theorem listOps_never_null_witness :
    ∃ l, (listApplications ⟨"https://x", "t", false⟩
      ⟨true, 200, "OK", false, none, []⟩).2 = Except.ok l ∧
      ((false : Bool) = false → l = ([] : List CoolifyApplication)) :=
  (listOps_never_null ⟨"https://x", "t", false⟩ "u" "p"
    ⟨true, 200, "OK", false, none, []⟩ ⟨true, 200, "OK", false, none, []⟩
    ⟨true, 200, "OK", false, none, []⟩ ⟨true, 200, "OK", false, none, []⟩
    rfl rfl rfl rfl).1

/-- Counterexample to C1: with the remote platform reporting status
`in_progress` for deployment `d1`, a dry-run `getDeployment` issues no API
request and resolves with a synthetic `finished` record — it does not
return the status the remote platform reports, unlike the same call in
live mode. -/
theorem getDeployment_dryRun_synthetic_cex :
    (getDeployment ⟨"https://x", "t", true⟩ "d1"
      ⟨true, 200, "OK", true, none, ⟨"in_progress", "d1"⟩⟩).1 = [] ∧
    (getDeployment ⟨"https://x", "t", true⟩ "d1"
      ⟨true, 200, "OK", true, none, ⟨"in_progress", "d1"⟩⟩).2 =
      Except.ok (some ⟨"finished", "d1"⟩) ∧
    (getDeployment ⟨"https://x", "t", false⟩ "d1"
      ⟨true, 200, "OK", true, none, ⟨"in_progress", "d1"⟩⟩).2 =
      Except.ok (some ⟨"in_progress", "d1"⟩) ∧
    (⟨"finished", "d1"⟩ : CoolifyDeployResponse) ≠ ⟨"in_progress", "d1"⟩ := by
  refine ⟨rfl, rfl, by simp [getDeployment, request], by decide⟩

/-- C1 amended: in dry-run mode every list/find read operation issues its
real API request and returns the platform's result exactly as in live
mode; `getDeployment` and `waitForDeployment`, however, issue no request in
dry-run mode and resolve with a synthetic deployment of status `finished`
for the requested uuid. -/
theorem dryRun_read_operations (c : CoolifyClient) (h : c.dryRun = true)
    (projectId name uuid depUuid : String) (envId : Int)
    (timeoutMs intervalMs : Nat)
    (respApps : ApiResponse (List CoolifyApplication))
    (respServers : ApiResponse (List CoolifyServer))
    (respEnvs : ApiResponse (List CoolifyEnvironment))
    (respVars : ApiResponse (List CoolifyEnvVarResponse))
    (respDep : ApiResponse CoolifyDeployResponse)
    (polls : Nat → Option CoolifyDeployResponse) :
    listApplications c respApps =
      listApplications { c with dryRun := false } respApps ∧
    listServers c respServers =
      listServers { c with dryRun := false } respServers ∧
    listEnvironments c projectId respEnvs =
      listEnvironments { c with dryRun := false } projectId respEnvs ∧
    findEnvironmentByName c projectId name respEnvs =
      findEnvironmentByName { c with dryRun := false } projectId name
        respEnvs ∧
    findApplicationByName c name envId respApps =
      findApplicationByName { c with dryRun := false } name envId
        respApps ∧
    listEnvironmentVariables c uuid respVars =
      listEnvironmentVariables { c with dryRun := false } uuid respVars ∧
    (listApplications c respApps).1 =
      [⟨"GET", c.baseUrl ++ "/api/v1/applications"⟩] ∧
    getDeployment c depUuid respDep =
      ([], Except.ok
        (some { status := "finished", deployment_uuid := depUuid })) ∧
    waitForDeployment c depUuid timeoutMs intervalMs polls =
      Except.ok { status := "finished", deployment_uuid := depUuid } := by
  refine ⟨rfl, rfl, rfl, rfl, rfl, rfl, rfl, ?_, ?_⟩
  · simp [getDeployment, h]
  · simp [waitForDeployment, h]

/-- Witness for C1 (amended): a concrete dry-run client listing
applications gets exactly the platform's list, while `getDeployment`
resolves synthetically. -/
theorem dryRun_read_operations_witness :
    listApplications ⟨"https://x", "t", true⟩
      ⟨true, 200, "OK", true, none, [⟨"u1", "api", 1⟩]⟩ =
      listApplications ⟨"https://x", "t", false⟩
        ⟨true, 200, "OK", true, none, [⟨"u1", "api", 1⟩]⟩ :=
  (dryRun_read_operations ⟨"https://x", "t", true⟩ rfl "p" "api" "u" "d1" 1
    300000 2000 ⟨true, 200, "OK", true, none, [⟨"u1", "api", 1⟩]⟩
    ⟨true, 200, "OK", true, none, []⟩ ⟨true, 200, "OK", true, none, []⟩
    ⟨true, 200, "OK", true, none, []⟩
    ⟨true, 200, "OK", true, none, ⟨"in_progress", "d1"⟩⟩
    (fun _ => none)).1

/-- The k-th poll happens iff `k * intervalMs` milliseconds (the time the
first k sleeps take) are still short of the timeout. -/
theorem lt_numPolls_iff (timeoutMs intervalMs : Nat) (hi : 0 < intervalMs)
    (k : Nat) :
    k < numPolls timeoutMs intervalMs ↔ k * intervalMs < timeoutMs := by
  unfold numPolls
  rw [Nat.lt_iff_add_one_le, Nat.le_div_iff_mul_le hi]
  have hmul : (k + 1) * intervalMs = k * intervalMs + intervalMs := by ring
  rw [hmul]
  generalize k * intervalMs = a
  omega

/-- The polling loop, started at poll index `k` with `n` iterations left,
ends in exactly one of three ways, characterized by the first terminal
status in its window of polls. -/
theorem waitLoop_trichotomy (uuid : String) (timeoutMs : Nat)
    (polls : Nat → Option CoolifyDeployResponse) :
    ∀ n k,
      (∃ j d, j < n ∧ polls (k + j) = some d ∧ d.status = "finished" ∧
        (∀ i, i < j → nonTerminal (polls (k + i))) ∧
        waitLoop uuid timeoutMs polls k n = Except.ok d) ∨
      (∃ j d, j < n ∧ polls (k + j) = some d ∧ d.status = "failed" ∧
        (∀ i, i < j → nonTerminal (polls (k + i))) ∧
        waitLoop uuid timeoutMs polls k n =
          Except.error (deployFailedMsg uuid)) ∨
      ((∀ i, i < n → nonTerminal (polls (k + i))) ∧
        waitLoop uuid timeoutMs polls k n =
          Except.error (timedOutMsg uuid timeoutMs)) := by
  intro n
  induction n with
  | zero =>
      intro k
      exact Or.inr (Or.inr
        ⟨fun i hi => absurd hi (Nat.not_lt_zero i), rfl⟩)
  | succ n ih =>
      intro k
      cases hp : polls k with
      | none =>
          have hstep : waitLoop uuid timeoutMs polls k (n + 1) =
              waitLoop uuid timeoutMs polls (k + 1) n := by
            simp [waitLoop, hp]
          have hnt0 : nonTerminal (polls k) := by
            intro d hd
            rw [hp] at hd
            exact absurd hd (by simp)
          have hshift : ∀ j, k + 1 + j = k + (j + 1) := fun j => by omega
          have hcov : ∀ j, (∀ i, i < j → nonTerminal (polls (k + 1 + i))) →
              ∀ i, i < j + 1 → nonTerminal (polls (k + i)) := by
            intro j hnt i hi
            cases i with
            | zero => simpa using hnt0
            | succ i' =>
                rw [show k + (i' + 1) = k + 1 + i' from by omega]
                exact hnt i' (by omega)
          rcases ih (k + 1) with
            ⟨j, d, hj, hpd, hst, hnt, hres⟩ |
            ⟨j, d, hj, hpd, hst, hnt, hres⟩ | ⟨hnt, hres⟩
          · have hpd' : polls (k + (j + 1)) = some d := by
              rw [← hshift j]; exact hpd
            have hres' : waitLoop uuid timeoutMs polls k (n + 1) =
                Except.ok d := by rw [hstep]; exact hres
            exact Or.inl ⟨j + 1, d, by omega, hpd', hst, hcov j hnt, hres'⟩
          · have hpd' : polls (k + (j + 1)) = some d := by
              rw [← hshift j]; exact hpd
            have hres' : waitLoop uuid timeoutMs polls k (n + 1) =
                Except.error (deployFailedMsg uuid) := by
              rw [hstep]; exact hres
            exact Or.inr (Or.inl ⟨j + 1, d, by omega, hpd', hst,
              hcov j hnt, hres'⟩)
          · have hres' : waitLoop uuid timeoutMs polls k (n + 1) =
                Except.error (timedOutMsg uuid timeoutMs) := by
              rw [hstep]; exact hres
            exact Or.inr (Or.inr ⟨hcov n hnt, hres'⟩)
      | some d =>
          by_cases hfin : d.status = "finished"
          · refine Or.inl ⟨0, d, Nat.succ_pos n, by simpa using hp, hfin,
              fun i hi => absurd hi (Nat.not_lt_zero i), ?_⟩
            simp [waitLoop, hp, hfin]
          · by_cases hfail : d.status = "failed"
            · refine Or.inr (Or.inl ⟨0, d, Nat.succ_pos n,
                by simpa using hp, hfail,
                fun i hi => absurd hi (Nat.not_lt_zero i), ?_⟩)
              simp [waitLoop, hp, hfin, hfail]
            · have hstep : waitLoop uuid timeoutMs polls k (n + 1) =
                  waitLoop uuid timeoutMs polls (k + 1) n := by
                simp [waitLoop, hp, hfin, hfail]
              have hnt0 : nonTerminal (polls k) := by
                intro d' hd'
                rw [hp] at hd'
                injection hd' with hdd
                subst hdd
                exact ⟨hfin, hfail⟩
              have hcov : ∀ j,
                  (∀ i, i < j → nonTerminal (polls (k + 1 + i))) →
                  ∀ i, i < j + 1 → nonTerminal (polls (k + i)) := by
                intro j hnt i hi
                cases i with
                | zero => simpa using hnt0
                | succ i' =>
                    rw [show k + (i' + 1) = k + 1 + i' from by omega]
                    exact hnt i' (by omega)
              rcases ih (k + 1) with
                ⟨j, d', hj, hpd, hst, hnt, hres⟩ |
                ⟨j, d', hj, hpd, hst, hnt, hres⟩ | ⟨hnt, hres⟩
              · have hpd' : polls (k + (j + 1)) = some d' := by
                  rw [show k + (j + 1) = k + 1 + j from by omega]
                  exact hpd
                have hres' : waitLoop uuid timeoutMs polls k (n + 1) =
                    Except.ok d' := by rw [hstep]; exact hres
                exact Or.inl ⟨j + 1, d', by omega, hpd', hst,
                  hcov j hnt, hres'⟩
              · have hpd' : polls (k + (j + 1)) = some d' := by
                  rw [show k + (j + 1) = k + 1 + j from by omega]
                  exact hpd
                have hres' : waitLoop uuid timeoutMs polls k (n + 1) =
                    Except.error (deployFailedMsg uuid) := by
                  rw [hstep]; exact hres
                exact Or.inr (Or.inl ⟨j + 1, d', by omega, hpd', hst,
                  hcov j hnt, hres'⟩)
              · have hres' : waitLoop uuid timeoutMs polls k (n + 1) =
                    Except.error (timedOutMsg uuid timeoutMs) := by
                  rw [hstep]; exact hres
                exact Or.inr (Or.inr ⟨hcov n hnt, hres'⟩)

/-- A poll stream that reports `finished` immediately, used to instantiate
witnesses. -/
def samplePolls : Nat → Option CoolifyDeployResponse :=
  fun _ => some { status := "finished", deployment_uuid := "d1" }

/-- C3: `waitForDeployment` polls at the fixed interval (default 2000 ms,
timeout default 300000 ms; `polls k` is issued iff `k * intervalMs` has
not reached the timeout) and terminates in exactly one of three ways:
resolving with the deployment at the first poll observing `finished`,
rejecting with the named failure error at the first poll observing
`failed`, and rejecting with a timeout error when no poll before the
deadline observes a terminal status; non-terminal statuses and absent
deployments before that point never terminate it. -/
theorem waitForDeployment_terminates_three_ways (c : CoolifyClient)
    (uuid : String) (timeoutMs intervalMs : Nat)
    (polls : Nat → Option CoolifyDeployResponse)
    (hc : c.dryRun = false) (hi : 0 < intervalMs) :
    defaultWaitIntervalMs = 2000 ∧ defaultWaitTimeoutMs = 300000 ∧
    (∀ k, k < numPolls timeoutMs intervalMs ↔ k * intervalMs < timeoutMs) ∧
    ((∃ j d, j < numPolls timeoutMs intervalMs ∧ polls j = some d ∧
        d.status = "finished" ∧ (∀ i, i < j → nonTerminal (polls i)) ∧
        waitForDeployment c uuid timeoutMs intervalMs polls =
          Except.ok d) ∨
     (∃ j d, j < numPolls timeoutMs intervalMs ∧ polls j = some d ∧
        d.status = "failed" ∧ (∀ i, i < j → nonTerminal (polls i)) ∧
        waitForDeployment c uuid timeoutMs intervalMs polls =
          Except.error (deployFailedMsg uuid)) ∨
     ((∀ i, i < numPolls timeoutMs intervalMs → nonTerminal (polls i)) ∧
        waitForDeployment c uuid timeoutMs intervalMs polls =
          Except.error (timedOutMsg uuid timeoutMs))) := by
  refine ⟨rfl, rfl, fun k => lt_numPolls_iff timeoutMs intervalMs hi k, ?_⟩
  have hw : waitForDeployment c uuid timeoutMs intervalMs polls =
      waitLoop uuid timeoutMs polls 0 (numPolls timeoutMs intervalMs) := by
    simp [waitForDeployment, hc]
  rw [hw]
  rcases waitLoop_trichotomy uuid timeoutMs polls
      (numPolls timeoutMs intervalMs) 0 with h | h | h
  · left; simpa using h
  · right; left; simpa using h
  · right; right; simpa using h

/-- Witness for C3: a live client whose first poll reports `finished`
(interval 2 ms, timeout 4 ms) lands in the trichotomy. -/
theorem waitForDeployment_terminates_three_ways_witness :
    defaultWaitIntervalMs = 2000 ∧ defaultWaitTimeoutMs = 300000 ∧
    (∀ k, k < numPolls 4 2 ↔ k * 2 < 4) ∧
    ((∃ j d, j < numPolls 4 2 ∧ samplePolls j = some d ∧
        d.status = "finished" ∧ (∀ i, i < j → nonTerminal (samplePolls i)) ∧
        waitForDeployment ⟨"https://x", "t", false⟩ "d1" 4 2 samplePolls =
          Except.ok d) ∨
     (∃ j d, j < numPolls 4 2 ∧ samplePolls j = some d ∧
        d.status = "failed" ∧ (∀ i, i < j → nonTerminal (samplePolls i)) ∧
        waitForDeployment ⟨"https://x", "t", false⟩ "d1" 4 2 samplePolls =
          Except.error (deployFailedMsg "d1")) ∨
     ((∀ i, i < numPolls 4 2 → nonTerminal (samplePolls i)) ∧
        waitForDeployment ⟨"https://x", "t", false⟩ "d1" 4 2 samplePolls =
          Except.error (timedOutMsg "d1" 4))) :=
  waitForDeployment_terminates_three_ways ⟨"https://x", "t", false⟩ "d1" 4 2
    samplePolls rfl (by decide)

end Coolify
